import Mathlib

/-!
Verification development for the Satellite-deforestation-monitoring
frontend. The definitions below are shallow embeddings of the TypeScript
source: the metrics derivation of the two ResultsPanel variants, the AOI
ring handlers of the two map components, the error path of the two
submitAnalysis variants, the paste-GeoJSON click handler, and the
setInterval poll loop of runAnalysis. JavaScript numbers are modeled as
rationals; JavaScript truthiness on strings and numbers is made explicit
where the source relies on it.
-/

namespace Deforestation

/-- JS expression (e || d) on an optional string e: the default d is used
when e is absent or the empty string (both falsy). -/
def jsOrDefault (e : Option String) (d : String) : String :=
  match e with
  | some s => if s = "" then d else s
  | none => d

/-! ## Data model, from the type declarations at the top of part_003 -/

structure SatelliteComparison where
  past_year : ℚ
  present_year : ℚ
  past_cover_ha : ℚ
  present_cover_ha : ℚ
  change_ha : ℚ
deriving Repr, DecidableEq

structure DroneData where
  vegetation_area_ha : ℚ
  total_area_ha : ℚ
  vegetation_percentage : ℚ
  mean_ndvi : ℚ
  error : Option String
deriving Repr, DecidableEq

structure NdviDifference where
  tile_url : String
deriving Repr, DecidableEq

structure ResultPayload where
  satellite_comparison : Option SatelliteComparison
  drone_data : Option DroneData
  ndvi_difference : Option NdviDifference
deriving Repr, DecidableEq

/-! ## MetricsDeriver: the calculations of the two ResultsPanel variants -/

/-- percentageChange of the ResultsPanel in part_003:
if (past_cover_ha <= 0) return 0; else ((present - past) / past) * 100. -/
def percentageChangeP3 (past present : ℚ) : ℚ :=
  if past ≤ 0 then 0 else (present - past) / past * 100

/-- percentageChange of the ResultsPanel in part_002 (same code appears in
part_004): the guard is (!past_cover_ha || past_cover_ha === 0), which for
a number is truthy-zero only, i.e. past = 0; a negative past is truthy and
falls through to the division. -/
def percentageChangeP2 (past present : ℚ) : ℚ :=
  if past = 0 then 0 else (present - past) / past * 100

/-- isGain of part_003: present_cover_ha > past_cover_ha. -/
def isGainP3 (sc : SatelliteComparison) : Bool :=
  sc.present_cover_ha > sc.past_cover_ha

/-- isLoss of part_003: present_cover_ha < past_cover_ha. -/
def isLossP3 (sc : SatelliteComparison) : Bool :=
  sc.present_cover_ha < sc.past_cover_ha

/-- isGain of part_002: change_ha > 0. -/
def isGainP2 (change : ℚ) : Bool :=
  change > 0

inductive Direction
| gain
| loss
| noChange
deriving Repr, DecidableEq

/-- The gain/loss label rendered by part_003:
change_ha === 0 ? no change : isGain ? gain : loss, with isGain read from
the present/past comparison. -/
def directionP3 (sc : SatelliteComparison) : Direction :=
  if sc.change_ha = 0 then Direction.noChange
  else if isGainP3 sc then Direction.gain else Direction.loss

/-- The gain/loss label rendered by part_002:
change_ha === 0 ? no change : isGain ? gain : loss, with isGain read from
change_ha alone. -/
def directionP2 (change : ℚ) : Direction :=
  if change = 0 then Direction.noChange
  else if isGainP2 change then Direction.gain else Direction.loss

/-- MAX_VISUAL_PERCENT constant of both ResultsPanel variants. -/
def MAX_VISUAL_PERCENT : ℚ := 5

/-- visualPercent of both ResultsPanel variants:
Math.min(Math.abs(percentageChange), MAX_VISUAL_PERCENT). -/
def visualPercentOf (pc : ℚ) : ℚ :=
  min |pc| MAX_VISUAL_PERCENT

/-- The visual-scale fraction with an explicit cap parameter: the bar width
in both panels is visualPercent / MAX_VISUAL_PERCENT (times a fixed 50%
half-width), i.e. min(abs(pc), cap) / cap with cap = 5 in the source. -/
def visualScale (pc cap : ℚ) : ℚ :=
  min |pc| cap / cap

/-- droneDiffPct of part_003 (same code appears in part_004):
droneVegetation !== null && satellitePresent > 0
  ? ((droneVegetation - satellitePresent) / satellitePresent) * 100
  : null. -/
def droneDiffPct (droneVegetation : Option ℚ) (satellitePresent : ℚ) : Option ℚ :=
  match droneVegetation with
  | some d =>
      if satellitePresent > 0 then some ((d - satellitePresent) / satellitePresent * 100)
      else none
  | none => none

/-- The derived values the part_003 panel renders. -/
structure PanelView where
  ndviTileUrl : Option String
  percentageChange : ℚ
  isGain : Bool
  isLoss : Bool
  absChange : ℚ
  visualPercent : ℚ
  droneDiffPct : Option ℚ
  direction : Direction
deriving Repr, DecidableEq

/-- The ResultsPanel of part_003 as a function from the result payload to
the rendered derived values; the first line of the component is
if (!result?.satellite_comparison) return null, so an absent
satellite_comparison yields none before anything else is read. -/
def resultsPanelP3 (result : ResultPayload) : Option PanelView :=
  match result.satellite_comparison with
  | none => none
  | some sc =>
      some ⟨result.ndvi_difference.map (fun n => n.tile_url),
            percentageChangeP3 sc.past_cover_ha sc.present_cover_ha,
            isGainP3 sc,
            isLossP3 sc,
            |sc.change_ha|,
            visualPercentOf (percentageChangeP3 sc.past_cover_ha sc.present_cover_ha),
            droneDiffPct (result.drone_data.map (fun d => d.vegetation_area_ha)) sc.present_cover_ha,
            directionP3 sc⟩

/-- The derived values the part_002 panel renders. -/
structure PanelViewP2 where
  percentageChange : ℚ
  isGain : Bool
  absChange : ℚ
  visualPercent : ℚ
  direction : Direction
deriving Repr, DecidableEq

/-- The ResultsPanel of part_002 as a function from the result payload to
the rendered derived values; its first line is
if (!result || !result.satellite_comparison) return null. -/
def resultsPanelP2 (result : ResultPayload) : Option PanelViewP2 :=
  match result.satellite_comparison with
  | none => none
  | some sc =>
      some ⟨percentageChangeP2 sc.past_cover_ha sc.present_cover_ha,
            isGainP2 sc.change_ha,
            |sc.change_ha|,
            visualPercentOf (percentageChangeP2 sc.past_cover_ha sc.present_cover_ha),
            directionP2 sc.change_ha⟩

/-! ## GeometryNormalizer: the AOI ring handlers of the map components -/

/-- A coordinate pair in (lng, lat) order, as both handlers build it from a
leaflet LatLng. -/
abbrev Point := ℚ × ℚ

/-- The exterior ring built by handleCreate in
frontend/components/MapAOIClient.tsx: the drawn vertices are closed by
appending the first vertex, [...latlngs, latlngs[0]]. -/
def handleCreateRing (latlngs : List Point) : List Point :=
  latlngs ++ latlngs.take 1

/-- The exterior ring built by handleCreated in part_005: the drawn
vertices are forwarded unchanged, latLngs.map(p => [p.lng, p.lat]), with
no closing vertex appended. -/
def handleCreatedRing (latLngs : List Point) : List Point :=
  latLngs

/-! ## AnalysisJobClient.submit: the error path of the two submitAnalysis
variants -/

/-- The body of a non-success HTTP response, as the two submit variants
can observe it: either a well-formed JSON object whose detail field may be
present, or text that is not well-formed JSON. -/
inductive RespBody
| jsonDetail (detail : Option String)
| plainText (s : String)
deriving Repr, DecidableEq

/-- The raw body text, as res.text() returns it; a JSON object body reads
back as its serialization. -/
def RespBody.rawText : RespBody → String
| RespBody.jsonDetail (some d) => "\x7b\"detail\":\"" ++ d ++ "\"\x7d"
| RespBody.jsonDetail none => "\x7b\x7d"
| RespBody.plainText s => s

/-- The outcome of one submitAnalysis call. -/
inductive SubmitResult
| ok
| thrown (message : String)
| jsonParseFailure
deriving Repr, DecidableEq

/-- submitAnalysis of frontend/lib/api.ts, error path: on a non-ok
response it runs res.json(); a plain-text body makes res.json() reject,
so the rejection is the JSON parse failure and no Error of this code is
thrown; a JSON body yields throw new Error(err.detail || "Analysis
failed"). -/
def submitAnalysisApi (resOk : Bool) (body : RespBody) : SubmitResult :=
  if resOk then SubmitResult.ok
  else
    match body with
    | RespBody.jsonDetail d => SubmitResult.thrown (jsOrDefault d "Analysis failed")
    | RespBody.plainText _ => SubmitResult.jsonParseFailure

/-- submitAnalysis of part_000, error path: on a non-ok response it reads
const err = await res.text() and runs throw new Error(err), so the raw
body text is thrown verbatim. -/
def submitAnalysisP0 (resOk : Bool) (body : RespBody) : SubmitResult :=
  if resOk then SubmitResult.ok else SubmitResult.thrown body.rawText

/-! ## The paste-GeoJSON click handler of part_001 -/

/-- A parsed JSON value, the possible outputs of JSON.parse. -/
inductive JValue
| str (s : String)
| num (q : ℚ)
| boolean (b : Bool)
| null
| arr (elems : List JValue)
| obj (fields : List (String × JValue))

/-- JS property read on a parsed JSON value: the named field of an object,
with a later duplicate key overwriting an earlier one (JSON.parse
semantics); undefined (none) on non-objects and missing keys. -/
def getField : JValue → String → Option JValue
| JValue.obj fields, key =>
    ((fields.filter (fun f => f.1 == key)).getLast?).map (fun f => f.2)
| _, _ => none

/-- The test parsed.type === "Polygon" of part_001 lines 186-189. -/
def typeIsPolygon (v : JValue) : Bool :=
  match getField v "type" with
  | some (JValue.str s) => s == "Polygon"
  | _ => false

/-- The test Array.isArray(parsed.coordinates) of part_001, together with
the coordinates it extracts when it holds. -/
def coordinatesArray (v : JValue) : Option (List JValue) :=
  match getField v "coordinates" with
  | some (JValue.arr xs) => some xs
  | _ => none

/-- The state left by one run of the paste-GeoJSON click handler: the AOI
stored by setAOI (none when untouched) and the error stored by
setGeojsonError (none, since the handler clears it first and failure paths
overwrite it). -/
structure GeoOutcome where
  aoi : Option (List JValue)
  geojsonError : Option String

/-- The paste-GeoJSON click handler of part_001 (lines 181-199). Its input
is the outcome of JSON.parse on the textarea text: Except.error msg when
the text is not well-formed JSON (msg the SyntaxError message, never empty
in practice; the catch stores err.message || "Invalid GeoJSON"), Except.ok
v for the parsed value. On a parsed value with type "Polygon" and an array
coordinates field the handler runs setAOI(parsed.coordinates); otherwise
it throws Error("Invalid GeoJSON Polygon"), caught by the same catch. -/
def useGeoJSONClick (parseOutcome : Except String JValue) : GeoOutcome :=
  match parseOutcome with
  | Except.error msg => ⟨none, some (if msg = "" then "Invalid GeoJSON" else msg)⟩
  | Except.ok v =>
      if typeIsPolygon v then
        match coordinatesArray v with
        | some xs => ⟨some xs, none⟩
        | none => ⟨none, some "Invalid GeoJSON Polygon"⟩
      else ⟨none, some "Invalid GeoJSON Polygon"⟩

/-! ## The poll loop of runAnalysis

runAnalysis submits the job and then runs setInterval with an async
callback: each timer tick starts one poll round trip, and only when that
round trip settles does the rest of the callback run on its outcome.
setInterval has no overlap guard and the fetch has no timeout, so the
timer keeps firing while earlier round trips are still in flight: several
polls can be in flight at once and they can settle in any order.
clearInterval stops the timer — no new poll starts afterwards — but a
callback already past its await still runs when its round trip settles. A
round trip that rejects at the network layer makes its callback throw
before any state setter runs: the rejection is unhandled and the interval
is untouched. -/

/-- The body of one poll response, backend envelope
\x7bstatus, result?, error?\x7d. -/
inductive JobStatus
| completed (result : Option ResultPayload)
| failed (error : Option String)
| processing
deriving Repr, DecidableEq

/-- One tick of a watch: either the poll round trip settles with a parsed
response, or it fails at the network layer. -/
inductive PollEvent
| response (jobData : JobStatus)
| netError
deriving Repr, DecidableEq

/-- A poll response with a terminal status. -/
def isTerminalEvent : PollEvent → Bool
| PollEvent.response (JobStatus.completed _) => true
| PollEvent.response (JobStatus.failed _) => true
| _ => false

/-- A state update run by the part_001 poll callback. -/
inductive Update
| resultSet (r : Option ResultPayload)
| errorSet (message : String)
| progressSet (message : String)
| loadingSet (b : Bool)
deriving Repr, DecidableEq

/-- One tick of the part_001 runAnalysis poll callback (lines 122-139):
the state setters it runs in order, and whether it runs clearInterval.
completed: setResult(jobData.result), setLoading(false), setProgress(""),
clearInterval; failed: setError(jobData.error || "Analysis failed"),
setLoading(false), setProgress(""), clearInterval; any other status:
setProgress("Processing satellite and drone data..."); a network failure
of the poll fetch: the callback throws first, so no setter and no
clearInterval. -/
def stepPoll : PollEvent → List Update × Bool
| PollEvent.response (JobStatus.completed r) =>
    ([Update.resultSet r, Update.loadingSet false, Update.progressSet ""], true)
| PollEvent.response (JobStatus.failed e) =>
    ([Update.errorSet (jsOrDefault e "Analysis failed"), Update.loadingSet false,
      Update.progressSet ""], true)
| PollEvent.response JobStatus.processing =>
    ([Update.progressSet "Processing satellite and drone data..."], false)
| PollEvent.netError => ([], false)

/-- A state update run by the poll callback of the Home runAnalysis in
frontend/app/page.tsx (lines 545-584); there setResult stores the whole
job envelope. -/
inductive UpdateHome
| resultSet (res : JobStatus)
| errorSet (message : String)
| loadingSet (b : Bool)
deriving Repr, DecidableEq

/-- One tick of the Home runAnalysis poll callback (page.tsx lines
565-584): completed: setResult(res), setLoading(false), clearInterval;
failed: setError("Analysis failed. Please try again."), setLoading(false),
clearInterval; any other status: nothing; a network failure of the poll
fetch (fetchResult rejecting): the callback throws first, so no setter and
no clearInterval. -/
def stepPollHome : PollEvent → List UpdateHome × Bool
| PollEvent.response (JobStatus.completed r) =>
    ([UpdateHome.resultSet (JobStatus.completed r), UpdateHome.loadingSet false], true)
| PollEvent.response (JobStatus.failed _) =>
    ([UpdateHome.errorSet "Analysis failed. Please try again.",
      UpdateHome.loadingSet false], true)
| PollEvent.response JobStatus.processing => ([], false)
| PollEvent.netError => ([], false)

/-- The in-memory state of one watch: whether the interval is still armed
(clearInterval not yet run), the round trips in flight in start order
(each recorded with the outcome it will settle with), and the state
updates run so far, in order. -/
structure WatchState (α : Type) where
  armed : Bool
  inflight : List PollEvent
  updates : List α

/-- One scheduler event of a watch: the interval timer fires (tick o —
the callback starts a fetch whose eventual outcome is o), or the round
trip at position i of the in-flight list settles (settle i — only now
does the rest of that async callback run). -/
inductive WatchEvent
| tick (o : PollEvent)
| settle (i : Nat)
deriving Repr, DecidableEq

/-- One scheduler event applied to a watch state, with the per-outcome
callback body given by step (stepPoll for part_001, stepPollHome for
page.tsx). A tick starts a poll only while the interval is armed, since
clearInterval stops the timer. A settle removes the round trip from
flight and runs the callback body on its outcome: the body's setter calls
are appended and, when the body runs clearInterval, the interval is
unarmed (and stays unarmed if it already was). A settle after
clearInterval still runs the callback in full — clearInterval does not
reach a callback already past its await. -/
def stepEvent {α : Type} (step : PollEvent → List α × Bool)
    (s : WatchState α) : WatchEvent → WatchState α
| WatchEvent.tick o =>
    if s.armed then ⟨s.armed, s.inflight ++ [o], s.updates⟩ else s
| WatchEvent.settle i =>
    match s.inflight[i]? with
    | none => s
    | some o =>
        ⟨s.armed && !(step o).2, s.inflight.eraseIdx i,
         s.updates ++ (step o).1⟩

/-- A watch run from a given state over a schedule of events. -/
def runWatchFrom {α : Type} (step : PollEvent → List α × Bool)
    (s : WatchState α) (evs : List WatchEvent) : WatchState α :=
  evs.foldl (stepEvent step) s

/-- A watch run from the state right after job submission: the interval
armed, nothing in flight, no update run. -/
def runWatch {α : Type} (step : PollEvent → List α × Bool)
    (evs : List WatchEvent) : WatchState α :=
  runWatchFrom step ⟨true, [], []⟩ evs

/-- The schedules in which poll round trips never overlap: every round
trip settles before the next timer tick, as when each response arrives
within the 3000 ms interval. -/
def seqSchedule : List PollEvent → List WatchEvent
| [] => []
| o :: rest => WatchEvent.tick o :: WatchEvent.settle 0 :: seqSchedule rest

/-- A poll outcome with failed status, the only outcome whose callback
runs setError. -/
def isFailedOutcome : PollEvent → Bool
| PollEvent.response (JobStatus.failed _) => true
| _ => false

/-- A tick whose round trip will settle with a failed response. -/
def isFailedTick : WatchEvent → Bool
| WatchEvent.tick o => isFailedOutcome o
| _ => false

/-- An error update of the part_001 callback (a setError call). -/
def isErrorUpdate : Update → Bool
| Update.errorSet _ => true
| _ => false

/-- An error update of the Home callback (a setError call). -/
def isErrorUpdateHome : UpdateHome → Bool
| UpdateHome.errorSet _ => true
| _ => false

/-- The terminal updates of the part_001 callback: the stored completed
result or the stored failure error. -/
def isTerminalUpdate : Update → Bool
| Update.resultSet _ => true
| Update.errorSet _ => true
| _ => false

/-- The terminal updates of the Home callback. -/
def isTerminalUpdateHome : UpdateHome → Bool
| UpdateHome.resultSet _ => true
| UpdateHome.errorSet _ => true
| _ => false

/-! ## C1: percentage change -/

/-- C1 counterexample: in the part_002 variant a negative baseline is not
guarded — percentageChange(-5, 5) divides through and returns -200, so the
claim that the computation returns 0 whenever past is at most 0 fails. -/
theorem C1_counterexample :
    percentageChangeP2 (-5) 5 = -200 ∧ ((-5 : ℚ) ≤ 0) ∧ ((-200 : ℚ) ≠ 0) := by
  refine ⟨?_, by norm_num, by norm_num⟩
  norm_num [percentageChangeP2]

/-- C1 (amended): the part_003 percentageChange returns 0 for every
past at most 0 and otherwise (present - past) / past * 100; the part_002
percentageChange returns 0 only for past = 0 (so never NaN or Infinity at
a zero baseline) and divides through for every nonzero past, negative
baselines included. -/
theorem C1_percentageChange_characterization :
    (∀ past present : ℚ, past ≤ 0 → percentageChangeP3 past present = 0)
    ∧ (∀ past present : ℚ, 0 < past →
        percentageChangeP3 past present = (present - past) / past * 100)
    ∧ (∀ present : ℚ, percentageChangeP2 0 present = 0)
    ∧ (∀ past present : ℚ, past ≠ 0 →
        percentageChangeP2 past present = (present - past) / past * 100) := by
  refine ⟨?_, ?_, ?_, ?_⟩
  · intro past present h
    simp [percentageChangeP3, h]
  · intro past present h
    simp [percentageChangeP3, not_le.mpr h]
  · intro present
    simp [percentageChangeP2]
  · intro past present h
    simp [percentageChangeP2, h]

/-- C1 witness: the characterization applied at concrete baselines. -/
theorem C1_witness :
    (((-5 : ℚ) ≤ 0) ∧ percentageChangeP3 (-5) 7 = 0)
    ∧ (((0 : ℚ) < 2) ∧ percentageChangeP3 2 3 = (3 - 2) / 2 * 100)
    ∧ percentageChangeP2 0 9 = 0
    ∧ (((2 : ℚ) ≠ 0) ∧ percentageChangeP2 2 3 = (3 - 2) / 2 * 100) :=
  ⟨⟨by norm_num, C1_percentageChange_characterization.1 (-5) 7 (by norm_num)⟩,
   ⟨by norm_num, C1_percentageChange_characterization.2.1 2 3 (by norm_num)⟩,
   C1_percentageChange_characterization.2.2.1 9,
   ⟨by norm_num, C1_percentageChange_characterization.2.2.2 2 3 (by norm_num)⟩⟩

/-! ## C5: gain/loss classification -/

/-- C5 counterexample: the part_003 label reads the present/past
comparison, not change_ha alone — on a payload with change_ha = 1 > 0 but
present below past, the rendered classification is loss, where the claim
requires gain. -/
theorem C5_counterexample :
    directionP3 ⟨2016, 2024, 10, 3, 1⟩ = Direction.loss
    ∧ ((1 : ℚ) > 0) ∧ Direction.loss ≠ Direction.gain := by
  refine ⟨?_, by norm_num, by decide⟩
  norm_num [directionP3, isGainP3]

/-- C5 (amended): the part_002 classification depends on change_ha alone
exactly as claimed (gain iff positive, loss iff negative, no-change iff
zero); the part_003 classification is no-change iff change_ha = 0 and
otherwise gain exactly when present exceeds past cover — so it also reads
the cover fields; on payloads whose change_ha is consistent with the
covers (change_ha = present - past) the two classifications agree. -/
theorem C5_direction_characterization :
    (∀ c : ℚ, (directionP2 c = Direction.gain ↔ 0 < c)
      ∧ (directionP2 c = Direction.loss ↔ c < 0)
      ∧ (directionP2 c = Direction.noChange ↔ c = 0))
    ∧ (∀ sc : SatelliteComparison,
        (directionP3 sc = Direction.noChange ↔ sc.change_ha = 0)
        ∧ (sc.change_ha ≠ 0 →
            (directionP3 sc = Direction.gain
              ↔ sc.past_cover_ha < sc.present_cover_ha)))
    ∧ (∀ sc : SatelliteComparison,
        sc.change_ha = sc.present_cover_ha - sc.past_cover_ha →
        directionP3 sc = directionP2 sc.change_ha) := by
  refine ⟨?_, ?_, ?_⟩
  · intro c
    by_cases h0 : c = 0
    · subst h0
      refine ⟨?_, ?_, ?_⟩ <;> simp [directionP2, isGainP2]
    · rcases lt_or_gt_of_ne h0 with hlt | hgt
      · have hng : ¬ (0 : ℚ) < c := not_lt.mpr hlt.le
        refine ⟨?_, ?_, ?_⟩ <;> simp [directionP2, isGainP2, h0, hng, hlt]
      · have hnl : ¬ c < (0 : ℚ) := not_lt.mpr hgt.le
        refine ⟨?_, ?_, ?_⟩ <;> simp [directionP2, isGainP2, h0, hgt, hnl]
  · intro sc
    constructor
    · by_cases h : sc.change_ha = 0
      · simp [directionP3, h]
      · by_cases h2 : sc.past_cover_ha < sc.present_cover_ha <;>
          simp [directionP3, isGainP3, h, h2]
    · intro h
      by_cases h2 : sc.past_cover_ha < sc.present_cover_ha <;>
        simp [directionP3, isGainP3, h, h2]
  · intro sc h
    unfold directionP3 directionP2 isGainP3 isGainP2
    rw [h]
    by_cases h0 : sc.present_cover_ha - sc.past_cover_ha = 0
    · simp [h0]
    · by_cases hg : sc.past_cover_ha < sc.present_cover_ha
      · simp [h0, hg, sub_pos.mpr hg]
      · have hns : ¬ (0 : ℚ) < sc.present_cover_ha - sc.past_cover_ha :=
          fun hc => hg (sub_pos.mp hc)
        simp [h0, hg, hns]

/-- C5 witness: on a consistent payload (change_ha = present - past) the
part_003 label agrees with the change-only classification. -/
theorem C5_witness :
    ((⟨2016, 2024, 10, 12, 2⟩ : SatelliteComparison).change_ha
      = (⟨2016, 2024, 10, 12, 2⟩ : SatelliteComparison).present_cover_ha
        - (⟨2016, 2024, 10, 12, 2⟩ : SatelliteComparison).past_cover_ha)
    ∧ directionP3 ⟨2016, 2024, 10, 12, 2⟩
        = directionP2 (⟨2016, 2024, 10, 12, 2⟩ : SatelliteComparison).change_ha :=
  ⟨by norm_num,
   C5_direction_characterization.2.2 ⟨2016, 2024, 10, 12, 2⟩ (by norm_num)⟩

/-! ## C6: visual scale -/

/-- C6: for every percentage value and positive cap the visual-scale
fraction is min(abs(pc), cap) / cap and lies in [0, 1]; the fraction the
panels render is exactly the cap-5 instance; at cap 5 an input of 12
yields 1 and an input of 5/2 yields 1/2. -/
theorem C6_visualScale_spec :
    (∀ pc cap : ℚ, 0 < cap →
        visualScale pc cap = min |pc| cap / cap
        ∧ 0 ≤ visualScale pc cap ∧ visualScale pc cap ≤ 1)
    ∧ (∀ pc : ℚ, visualPercentOf pc / MAX_VISUAL_PERCENT = visualScale pc 5)
    ∧ visualScale 12 5 = 1 ∧ visualScale (5 / 2) 5 = 1 / 2 := by
  refine ⟨?_, ?_, ?_, ?_⟩
  · intro pc cap hcap
    refine ⟨rfl, ?_, ?_⟩
    · exact div_nonneg (le_min (abs_nonneg pc) hcap.le) hcap.le
    · exact (div_le_one hcap).mpr (min_le_right _ _)
  · intro pc
    rfl
  · norm_num [visualScale, abs_of_nonneg]
  · norm_num [visualScale, abs_of_nonneg]

/-- C6 witness: the bounds applied at the concrete input 12 with cap 5. -/
theorem C6_witness :
    ((0 : ℚ) < 5)
    ∧ (visualScale 12 5 = min |(12 : ℚ)| 5 / 5
      ∧ 0 ≤ visualScale 12 5 ∧ visualScale 12 5 ≤ 1) :=
  ⟨by norm_num, C6_visualScale_spec.1 12 5 (by norm_num)⟩

/-! ## C7: drone versus satellite difference -/

/-- C7: the drone/satellite difference is none exactly when the drone
value is absent or the satellite value is at most 0, and otherwise equals
(drone - satellite) / satellite * 100; at (none, 100) it is none and at
(90, 100) it is -10. -/
theorem C7_droneDiffPct_spec :
    (∀ (d : Option ℚ) (s : ℚ), droneDiffPct d s = none ↔ d = none ∨ s ≤ 0)
    ∧ (∀ v s : ℚ, 0 < s →
        droneDiffPct (some v) s = some ((v - s) / s * 100))
    ∧ droneDiffPct none 100 = none
    ∧ droneDiffPct (some 90) 100 = some (-10) := by
  refine ⟨?_, ?_, rfl, ?_⟩
  · intro d s
    cases d with
    | none => simp [droneDiffPct]
    | some v =>
        by_cases hs : (0 : ℚ) < s
        · simp [droneDiffPct, hs, not_le.mpr hs]
        · simp [droneDiffPct, hs, not_lt.mp hs]
  · intro v s hs
    simp [droneDiffPct, hs]
  · norm_num [droneDiffPct]

/-- C7 witness: the formula branch applied at drone 90, satellite 100. -/
theorem C7_witness :
    ((0 : ℚ) < 100)
    ∧ droneDiffPct (some 90) 100 = some ((90 - 100) / 100 * 100) :=
  ⟨by norm_num, C7_droneDiffPct_spec.2.1 90 100 (by norm_num)⟩

/-! ## C10: panel guard on absent satellite comparison -/

/-- C10: both ResultsPanel variants return none for every payload whose
satellite_comparison is absent, whatever the drone and NDVI fields hold,
and produce a rendered view exactly when satellite_comparison is present
— derived metrics are computed only in that branch. -/
theorem C10_resultsPanel_guard :
    (∀ (dd : Option DroneData) (nd : Option NdviDifference),
        resultsPanelP3 ⟨none, dd, nd⟩ = none)
    ∧ (∀ r : ResultPayload,
        (resultsPanelP3 r).isSome ↔ r.satellite_comparison.isSome)
    ∧ (∀ (dd : Option DroneData) (nd : Option NdviDifference),
        resultsPanelP2 ⟨none, dd, nd⟩ = none)
    ∧ (∀ r : ResultPayload,
        (resultsPanelP2 r).isSome ↔ r.satellite_comparison.isSome) := by
  refine ⟨?_, ?_, ?_, ?_⟩
  · intro dd nd
    rfl
  · rintro ⟨sc, dd, nd⟩
    cases sc <;> simp [resultsPanelP3]
  · intro dd nd
    rfl
  · rintro ⟨sc, dd, nd⟩
    cases sc <;> simp [resultsPanelP2]

/-! ## C4: ring closure -/

/-- C4 counterexample: the part_005 handler forwards the drawn vertices
unchanged, so a drawn triangle whose first vertex differs from its last is
submitted as an open 3-point ring — neither the 4-point minimum nor
first = last holds. -/
theorem C4_counterexample :
    handleCreatedRing [((0 : ℚ), (0 : ℚ)), (1, 0), (0, 1)]
        = [((0 : ℚ), (0 : ℚ)), (1, 0), (0, 1)]
    ∧ (handleCreatedRing [((0 : ℚ), (0 : ℚ)), (1, 0), (0, 1)]).head?
        ≠ (handleCreatedRing [((0 : ℚ), (0 : ℚ)), (1, 0), (0, 1)]).getLast?
    ∧ (handleCreatedRing [((0 : ℚ), (0 : ℚ)), (1, 0), (0, 1)]).length < 4 := by
  refine ⟨rfl, ?_, by decide⟩
  decide

/-- C4 (amended): the handleCreate handler of MapAOIClient.tsx auto-closes
every drawn ring by appending the first vertex, so from at least 3 drawn
vertices the submitted ring has at least 4 points with first and last
coordinate-equal; the handleCreated handler of part_005 submits the drawn
ring unchanged, with no closure. -/
theorem C4_ring_closure :
    (∀ ps : List Point, 3 ≤ ps.length →
        4 ≤ (handleCreateRing ps).length
        ∧ (handleCreateRing ps).head? = (handleCreateRing ps).getLast?)
    ∧ (∀ ps : List Point, handleCreatedRing ps = ps) := by
  constructor
  · intro ps h
    cases ps with
    | nil => simp at h
    | cons a rest =>
        have htake : (a :: rest).take 1 = [a] := rfl
        constructor
        · have hlen : (handleCreateRing (a :: rest)).length = (a :: rest).length + 1 := by
            rw [handleCreateRing, htake, List.length_append]
            rfl
          omega
        · show (handleCreateRing (a :: rest)).head?
            = (handleCreateRing (a :: rest)).getLast?
          rw [handleCreateRing, htake, List.getLast?_concat]
          rfl
  · intro ps
    rfl

/-- C4 witness: the closure property applied to a drawn triangle. -/
theorem C4_witness :
    3 ≤ ([((0 : ℚ), (0 : ℚ)), (1, 0), (0, 1)] : List Point).length
    ∧ (4 ≤ (handleCreateRing [((0 : ℚ), (0 : ℚ)), (1, 0), (0, 1)]).length
      ∧ (handleCreateRing [((0 : ℚ), (0 : ℚ)), (1, 0), (0, 1)]).head?
          = (handleCreateRing [((0 : ℚ), (0 : ℚ)), (1, 0), (0, 1)]).getLast?) :=
  ⟨by decide, C4_ring_closure.1 [((0 : ℚ), (0 : ℚ)), (1, 0), (0, 1)] (by decide)⟩

/-! ## C8: submission error surface -/

/-- C8 counterexample: on a non-success response with a plain-text body,
the api.ts variant runs res.json(), which rejects — the caller sees the
JSON parse failure, not an Error carrying the body text and not the
generic message. -/
theorem C8_counterexample :
    submitAnalysisApi false (RespBody.plainText "Server overloaded")
        = SubmitResult.jsonParseFailure
    ∧ SubmitResult.jsonParseFailure ≠ SubmitResult.thrown "Server overloaded"
    ∧ SubmitResult.jsonParseFailure ≠ SubmitResult.thrown "Analysis failed" := by
  refine ⟨rfl, by decide, by decide⟩

/-- C8 (amended): the api.ts submitAnalysis surfaces the JSON detail text
when present and nonempty and the generic message when the JSON body lacks
a usable detail, but rejects with a JSON parse failure on every plain-text
body; the part_000 submitAnalysis throws the raw body text verbatim — the
plain text itself, or the full JSON serialization rather than the
extracted detail, and never a generic message. -/
theorem C8_submit_error_characterization :
    (∀ s : String, s ≠ "" →
        submitAnalysisApi false (RespBody.jsonDetail (some s))
          = SubmitResult.thrown s)
    ∧ submitAnalysisApi false (RespBody.jsonDetail none)
        = SubmitResult.thrown "Analysis failed"
    ∧ submitAnalysisApi false (RespBody.jsonDetail (some ""))
        = SubmitResult.thrown "Analysis failed"
    ∧ (∀ s : String, submitAnalysisApi false (RespBody.plainText s)
        = SubmitResult.jsonParseFailure)
    ∧ (∀ s : String, submitAnalysisP0 false (RespBody.plainText s)
        = SubmitResult.thrown s)
    ∧ (∀ d : Option String, submitAnalysisP0 false (RespBody.jsonDetail d)
        = SubmitResult.thrown (RespBody.jsonDetail d).rawText) := by
  refine ⟨?_, rfl, rfl, ?_, ?_, ?_⟩
  · intro s h
    simp [submitAnalysisApi, jsOrDefault, h]
  · intro s
    rfl
  · intro s
    rfl
  · intro d
    rfl

/-- C8 witness: the detail branch applied at a nonempty detail text. -/
theorem C8_witness :
    ("quota exceeded" ≠ "")
    ∧ submitAnalysisApi false (RespBody.jsonDetail (some "quota exceeded"))
        = SubmitResult.thrown "quota exceeded" :=
  ⟨by decide, C8_submit_error_characterization.1 "quota exceeded" (by decide)⟩

/-! ## C9: paste-GeoJSON acceptance -/

/-- C9: a parse failure stores no AOI and stores an error; a parsed value
is accepted exactly when its type field is the string Polygon and its
coordinates field is an array, in which case those coordinates become the
AOI with the error cleared; every other parsed value stores no AOI and
stores the invalid-polygon error. -/
theorem C9_useGeoJSON_spec :
    (∀ msg : String, (useGeoJSONClick (Except.error msg)).aoi = none
        ∧ (useGeoJSONClick (Except.error msg)).geojsonError.isSome)
    ∧ (∀ v : JValue, (useGeoJSONClick (Except.ok v)).aoi.isSome
        ↔ (typeIsPolygon v = true ∧ (coordinatesArray v).isSome))
    ∧ (∀ (v : JValue) (xs : List JValue),
        typeIsPolygon v = true → coordinatesArray v = some xs →
        useGeoJSONClick (Except.ok v) = ⟨some xs, none⟩)
    ∧ (∀ v : JValue, ¬(typeIsPolygon v = true ∧ (coordinatesArray v).isSome) →
        useGeoJSONClick (Except.ok v) = ⟨none, some "Invalid GeoJSON Polygon"⟩) := by
  refine ⟨?_, ?_, ?_, ?_⟩
  · intro msg
    by_cases h : msg = "" <;> simp [useGeoJSONClick, h]
  · intro v
    by_cases ht : typeIsPolygon v
    · cases hc : coordinatesArray v <;> simp [useGeoJSONClick, ht, hc]
    · simp [useGeoJSONClick, ht]
  · intro v xs ht hc
    simp [useGeoJSONClick, ht, hc]
  · intro v h
    by_cases ht : typeIsPolygon v
    · have hc : coordinatesArray v = none := by
        cases hc : coordinatesArray v with
        | none => rfl
        | some xs => exact absurd ⟨ht, by simp [hc]⟩ h
      simp [useGeoJSONClick, ht, hc]
    · simp [useGeoJSONClick, ht]

/-- C9 witness: the acceptance branch applied to a parsed object with type
Polygon and an array coordinates field. -/
theorem C9_witness :
    typeIsPolygon
        (JValue.obj [("type", JValue.str "Polygon"), ("coordinates", JValue.arr [])]) = true
    ∧ coordinatesArray
        (JValue.obj [("type", JValue.str "Polygon"), ("coordinates", JValue.arr [])]) = some []
    ∧ useGeoJSONClick (Except.ok
        (JValue.obj [("type", JValue.str "Polygon"), ("coordinates", JValue.arr [])]))
        = ⟨some [], none⟩ :=
  ⟨rfl, rfl,
   C9_useGeoJSON_spec.2.2.1
     (JValue.obj [("type", JValue.str "Polygon"), ("coordinates", JValue.arr [])])
     [] rfl rfl⟩

/-! ## Poll-loop lemmas -/

/-- In a non-overlapping schedule, a stretch of round trips whose
callbacks do not clear the interval accumulates their updates and leaves
the watch armed with nothing in flight. -/
theorem runWatchFrom_seq_nonstop {α : Type} (step : PollEvent → List α × Bool)
    (pre rest : List PollEvent) (us : List α)
    (h : ∀ e ∈ pre, (step e).2 = false) :
    runWatchFrom step ⟨true, [], us⟩ (seqSchedule (pre ++ rest))
      = runWatchFrom step
          ⟨true, [], us ++ (pre.map (fun e => (step e).1)).flatten⟩
          (seqSchedule rest) := by
  induction pre generalizing us with
  | nil => simp [seqSchedule]
  | cons o pre' ih =>
      have ho : (step o).2 = false := h o (by simp)
      have h2 : stepEvent step (stepEvent step
          (⟨true, [], us⟩ : WatchState α) (WatchEvent.tick o))
          (WatchEvent.settle 0) = ⟨true, [], us ++ (step o).1⟩ := by
        simp [stepEvent, ho]
      have hexp : seqSchedule ((o :: pre') ++ rest)
          = WatchEvent.tick o :: WatchEvent.settle 0
            :: seqSchedule (pre' ++ rest) := rfl
      rw [hexp, runWatchFrom, List.foldl_cons, List.foldl_cons, h2]
      rw [show List.foldl (stepEvent step) (⟨true, [], us ++ (step o).1⟩ : WatchState α)
            (seqSchedule (pre' ++ rest))
          = runWatchFrom step ⟨true, [], us ++ (step o).1⟩
              (seqSchedule (pre' ++ rest)) from rfl]
      rw [ih (us ++ (step o).1) (fun e he => h e (by simp [he]))]
      simp

/-- Once the interval is cleared and nothing is in flight, a
non-overlapping schedule changes nothing: ticks are dead and there is
nothing to settle. -/
theorem runWatchFrom_unarmed {α : Type} (step : PollEvent → List α × Bool)
    (us : List α) (ps : List PollEvent) :
    runWatchFrom step ⟨false, [], us⟩ (seqSchedule ps) = ⟨false, [], us⟩ := by
  induction ps with
  | nil => rfl
  | cons o rest ih =>
      have h2 : stepEvent step (stepEvent step
          (⟨false, [], us⟩ : WatchState α) (WatchEvent.tick o))
          (WatchEvent.settle 0) = ⟨false, [], us⟩ := by
        simp [stepEvent]
      have hexp : seqSchedule (o :: rest)
          = WatchEvent.tick o :: WatchEvent.settle 0 :: seqSchedule rest := rfl
      rw [hexp, runWatchFrom, List.foldl_cons, List.foldl_cons, h2]
      exact ih

/-- A non-overlapping schedule whose first terminal response follows a
stretch of non-terminal ones: the watch ends cleared and empty, with the
updates of the stretch followed by the updates of the terminal callback —
whatever was polled afterwards. -/
theorem runWatch_seq_terminal {α : Type} (step : PollEvent → List α × Bool)
    (pre post : List PollEvent) (t : PollEvent)
    (hpre : ∀ e ∈ pre, (step e).2 = false) (ht : (step t).2 = true) :
    runWatch step (seqSchedule (pre ++ t :: post))
      = ⟨false, [],
         (pre.map (fun e => (step e).1)).flatten ++ (step t).1⟩ := by
  rw [runWatch, runWatchFrom_seq_nonstop step pre (t :: post) [] hpre]
  have h2 : stepEvent step (stepEvent step
      (⟨true, [], [] ++ (pre.map (fun e => (step e).1)).flatten⟩ : WatchState α)
      (WatchEvent.tick t)) (WatchEvent.settle 0)
      = ⟨false, [],
         ([] ++ (pre.map (fun e => (step e).1)).flatten) ++ (step t).1⟩ := by
    simp [stepEvent, ht]
  have hexp : seqSchedule (t :: post)
      = WatchEvent.tick t :: WatchEvent.settle 0 :: seqSchedule post := rfl
  rw [hexp, runWatchFrom, List.foldl_cons, List.foldl_cons, h2]
  rw [show List.foldl (stepEvent step)
        (⟨false, [],
          ([] ++ (pre.map (fun e => (step e).1)).flatten) ++ (step t).1⟩ : WatchState α)
        (seqSchedule post)
      = runWatchFrom step
          ⟨false, [],
           ([] ++ (pre.map (fun e => (step e).1)).flatten) ++ (step t).1⟩
          (seqSchedule post) from rfl]
  rw [runWatchFrom_unarmed]
  simp

/-- Over any schedule whose ticks never carry a failed response, a watch
whose updates and in-flight outcomes are clean of the bad updates stays
clean: the callbacks of non-failed outcomes never produce them. -/
theorem runWatchFrom_no_bad {α : Type} (step : PollEvent → List α × Bool)
    (bad : α → Bool)
    (hstep : ∀ o : PollEvent, isFailedOutcome o = false →
      (step o).1.filter bad = []) :
    ∀ (evs : List WatchEvent) (s : WatchState α),
      (∀ ev ∈ evs, isFailedTick ev = false) →
      s.updates.filter bad = [] →
      s.inflight.filter isFailedOutcome = [] →
      (runWatchFrom step s evs).updates.filter bad = [] := by
  intro evs
  induction evs with
  | nil =>
      intro s _ hu _
      exact hu
  | cons ev rest ih =>
      intro s hevs hu hin
      have hrest : ∀ e ∈ rest, isFailedTick e = false :=
        fun e he => hevs e (by simp [he])
      show (runWatchFrom step (stepEvent step s ev) rest).updates.filter bad = []
      cases ev with
      | tick o =>
          have ho : isFailedOutcome o = false := by
            have := hevs (WatchEvent.tick o) (by simp)
            simpa [isFailedTick] using this
          by_cases ha : s.armed
          · exact ih _ hrest (by simpa [stepEvent, ha] using hu)
              (by simp [stepEvent, ha, List.filter_append, hin, ho])
          · exact ih _ hrest (by simpa [stepEvent, ha] using hu)
              (by simpa [stepEvent, ha] using hin)
      | settle i =>
          rcases hi : s.inflight[i]? with _ | o
          · exact ih _ hrest (by simpa [stepEvent, hi] using hu)
              (by simpa [stepEvent, hi] using hin)
          · have hom : o ∈ s.inflight := by
              obtain ⟨hlt, rfl⟩ := List.getElem?_eq_some.mp hi
              exact List.getElem_mem hlt
            have ho : isFailedOutcome o = false := by
              have := List.filter_eq_nil_iff.mp hin o hom
              simpa using this
            refine ih _ hrest ?_ ?_
            · simp [stepEvent, hi, List.filter_append, hu, hstep o ho]
            · have : (s.inflight.eraseIdx i).filter isFailedOutcome = [] := by
                rw [List.filter_eq_nil_iff] at hin ⊢
                intro a ha2
                exact hin a (List.eraseIdx_subset s.inflight i ha2)
              simpa [stepEvent, hi] using this

/-- The callback of any non-failed outcome runs no setError in
part_001. -/
theorem stepPoll_no_error (o : PollEvent) (h : isFailedOutcome o = false) :
    (stepPoll o).1.filter isErrorUpdate = [] := by
  cases o with
  | response j => cases j <;> first | rfl | simp [isFailedOutcome] at h
  | netError => rfl

/-- The callback of any non-failed outcome runs no setError in the Home
variant. -/
theorem stepPollHome_no_error (o : PollEvent) (h : isFailedOutcome o = false) :
    (stepPollHome o).1.filter isErrorUpdateHome = [] := by
  cases o with
  | response j => cases j <;> first | rfl | simp [isFailedOutcome] at h
  | netError => rfl

/-- Flattening tick updates that each contain no update satisfying p
yields no update satisfying p. -/
theorem filter_flatten_eq_nil {α β : Type} (f : α → List β) (p : β → Bool)
    (l : List α) (h : ∀ e ∈ l, (f e).filter p = []) :
    ((l.map f).flatten).filter p = [] := by
  induction l with
  | nil => rfl
  | cons a t ih =>
      rw [List.map_cons, List.flatten_cons, List.filter_append,
        h a (by simp), ih (fun e he => h e (by simp [he]))]
      rfl

/-- The part_001 callback clears the interval exactly on a terminal
response. -/
theorem stepPoll_stop (e : PollEvent) : (stepPoll e).2 = isTerminalEvent e := by
  cases e with
  | response j => cases j <;> rfl
  | netError => rfl

/-- The Home callback clears the interval exactly on a terminal
response. -/
theorem stepPollHome_stop (e : PollEvent) :
    (stepPollHome e).2 = isTerminalEvent e := by
  cases e with
  | response j => cases j <;> rfl
  | netError => rfl

/-- A non-terminal tick of the part_001 callback runs no terminal
update. -/
theorem stepPoll_nonterminal_filter (e : PollEvent)
    (h : isTerminalEvent e = false) :
    (stepPoll e).1.filter isTerminalUpdate = [] := by
  cases e with
  | response j => cases j <;> first | rfl | simp [isTerminalEvent] at h
  | netError => rfl

/-- A non-terminal tick of the Home callback runs no terminal update. -/
theorem stepPollHome_nonterminal_filter (e : PollEvent)
    (h : isTerminalEvent e = false) :
    (stepPollHome e).1.filter isTerminalUpdateHome = [] := by
  cases e with
  | response j => cases j <;> first | rfl | simp [isTerminalEvent] at h
  | netError => rfl

/-- A terminal tick of the part_001 callback runs exactly one terminal
update. -/
theorem stepPoll_terminal_filter (e : PollEvent)
    (h : isTerminalEvent e = true) :
    ((stepPoll e).1.filter isTerminalUpdate).length = 1 := by
  cases e with
  | response j => cases j <;> first | rfl | simp [isTerminalEvent] at h
  | netError => simp [isTerminalEvent] at h

/-- A terminal tick of the Home callback runs exactly one terminal
update. -/
theorem stepPollHome_terminal_filter (e : PollEvent)
    (h : isTerminalEvent e = true) :
    ((stepPollHome e).1.filter isTerminalUpdateHome).length = 1 := by
  cases e with
  | response j => cases j <;> first | rfl | simp [isTerminalEvent] at h
  | netError => simp [isTerminalEvent] at h

/-- A non-terminal tick of the part_001 callback never runs setError. -/
theorem stepPoll_nonterminal_no_error (e : PollEvent)
    (h : isTerminalEvent e = false) (m : String) :
    Update.errorSet m ∉ (stepPoll e).1 := by
  cases e with
  | response j => cases j <;> simp_all [isTerminalEvent, stepPoll]
  | netError => simp [stepPoll]

/-- A non-terminal tick of the Home callback never runs setError. -/
theorem stepPollHome_nonterminal_no_error (e : PollEvent)
    (h : isTerminalEvent e = false) (m : String) :
    UpdateHome.errorSet m ∉ (stepPollHome e).1 := by
  cases e with
  | response j => cases j <;> simp_all [isTerminalEvent, stepPollHome]
  | netError => simp [stepPollHome]

/-! ## C2: terminal updates of a watch -/

/-- C2 counterexample: setInterval has no overlap guard, so a second poll
can start while the first is in flight; when both settle with completed,
both callbacks run setResult — two terminal updates are delivered after a
terminal state was observed, where the claim requires exactly one and no
further update. -/
theorem C2_counterexample :
    ((runWatch stepPoll
        [WatchEvent.tick (PollEvent.response (JobStatus.completed none)),
         WatchEvent.tick (PollEvent.response (JobStatus.completed none)),
         WatchEvent.settle 0, WatchEvent.settle 0]).updates.filter
          isTerminalUpdate).length = 2 ∧ (2 : Nat) ≠ 1 :=
  ⟨by decide, by decide⟩

/-- C2 (amended): in both poll loops, processing a terminal response
clears the interval; a cleared interval is permanent and a dead tick
starts no poll, so no further poll is ever scheduled. In every schedule
where round trips do not overlap, the updates delivered do not depend on
outcomes polled after the first terminal response and contain exactly one
terminal update. (A round trip already in flight when the terminal
response is processed still runs its callback when it settles, which is
what the counterexample exploits.) -/
theorem C2_terminal_once :
    (∀ (s : WatchState Update) (i : Nat) (t : PollEvent),
        s.inflight[i]? = some t → isTerminalEvent t = true →
        (stepEvent stepPoll s (WatchEvent.settle i)).armed = false)
    ∧ (∀ (s : WatchState Update) (o : PollEvent), s.armed = false →
        stepEvent stepPoll s (WatchEvent.tick o) = s)
    ∧ (∀ (s : WatchState Update) (ev : WatchEvent), s.armed = false →
        (stepEvent stepPoll s ev).armed = false)
    ∧ (∀ (pre post₁ post₂ : List PollEvent) (t : PollEvent),
        (∀ e ∈ pre, isTerminalEvent e = false) → isTerminalEvent t = true →
        ((runWatch stepPoll (seqSchedule (pre ++ t :: post₁))).updates
            = (runWatch stepPoll (seqSchedule (pre ++ t :: post₂))).updates
        ∧ ((runWatch stepPoll (seqSchedule (pre ++ t :: post₁))).updates.filter
            isTerminalUpdate).length = 1))
    ∧ (∀ (s : WatchState UpdateHome) (i : Nat) (t : PollEvent),
        s.inflight[i]? = some t → isTerminalEvent t = true →
        (stepEvent stepPollHome s (WatchEvent.settle i)).armed = false)
    ∧ (∀ (s : WatchState UpdateHome) (o : PollEvent), s.armed = false →
        stepEvent stepPollHome s (WatchEvent.tick o) = s)
    ∧ (∀ (s : WatchState UpdateHome) (ev : WatchEvent), s.armed = false →
        (stepEvent stepPollHome s ev).armed = false)
    ∧ (∀ (pre post₁ post₂ : List PollEvent) (t : PollEvent),
        (∀ e ∈ pre, isTerminalEvent e = false) → isTerminalEvent t = true →
        ((runWatch stepPollHome (seqSchedule (pre ++ t :: post₁))).updates
            = (runWatch stepPollHome (seqSchedule (pre ++ t :: post₂))).updates
        ∧ ((runWatch stepPollHome (seqSchedule (pre ++ t :: post₁))).updates.filter
            isTerminalUpdateHome).length = 1)) := by
  refine ⟨?_, ?_, ?_, ?_, ?_, ?_, ?_, ?_⟩
  · intro s i t hi ht
    simp [stepEvent, hi, stepPoll_stop, ht]
  · intro s o h
    simp [stepEvent, h]
  · intro s ev h
    cases ev with
    | tick o => simp [stepEvent, h]
    | settle i => rcases hi : s.inflight[i]? with _ | o <;> simp [stepEvent, hi, h]
  · intro pre post₁ post₂ t hpre ht
    have hpre1 : ∀ e ∈ pre, (stepPoll e).2 = false := fun e he => by
      rw [stepPoll_stop]; exact hpre e he
    have ht1 : (stepPoll t).2 = true := by rw [stepPoll_stop]; exact ht
    have h₁ := runWatch_seq_terminal stepPoll pre post₁ t hpre1 ht1
    have h₂ := runWatch_seq_terminal stepPoll pre post₂ t hpre1 ht1
    constructor
    · rw [h₁, h₂]
    · rw [h₁]
      show (((pre.map (fun e => (stepPoll e).1)).flatten
          ++ (stepPoll t).1).filter isTerminalUpdate).length = 1
      rw [List.filter_append,
        filter_flatten_eq_nil _ _ pre
          (fun e he => stepPoll_nonterminal_filter e (hpre e he))]
      simpa using stepPoll_terminal_filter t ht
  · intro s i t hi ht
    simp [stepEvent, hi, stepPollHome_stop, ht]
  · intro s o h
    simp [stepEvent, h]
  · intro s ev h
    cases ev with
    | tick o => simp [stepEvent, h]
    | settle i => rcases hi : s.inflight[i]? with _ | o <;> simp [stepEvent, hi, h]
  · intro pre post₁ post₂ t hpre ht
    have hpre1 : ∀ e ∈ pre, (stepPollHome e).2 = false := fun e he => by
      rw [stepPollHome_stop]; exact hpre e he
    have ht1 : (stepPollHome t).2 = true := by rw [stepPollHome_stop]; exact ht
    have h₁ := runWatch_seq_terminal stepPollHome pre post₁ t hpre1 ht1
    have h₂ := runWatch_seq_terminal stepPollHome pre post₂ t hpre1 ht1
    constructor
    · rw [h₁, h₂]
    · rw [h₁]
      show (((pre.map (fun e => (stepPollHome e).1)).flatten
          ++ (stepPollHome t).1).filter isTerminalUpdateHome).length = 1
      rw [List.filter_append,
        filter_flatten_eq_nil _ _ pre
          (fun e he => stepPollHome_nonterminal_filter e (hpre e he))]
      simpa using stepPollHome_terminal_filter t ht

/-- C2 witness: a processing poll, then a completed poll, each settling
in turn; outcomes polled afterwards change nothing and exactly one
terminal update is delivered. -/
theorem C2_witness :
    (∀ e ∈ [PollEvent.response JobStatus.processing], isTerminalEvent e = false)
    ∧ isTerminalEvent (PollEvent.response (JobStatus.completed none)) = true
    ∧ ((runWatch stepPoll (seqSchedule ([PollEvent.response JobStatus.processing]
          ++ PollEvent.response (JobStatus.completed none)
            :: [PollEvent.netError]))).updates
        = (runWatch stepPoll (seqSchedule ([PollEvent.response JobStatus.processing]
          ++ PollEvent.response (JobStatus.completed none) :: []))).updates
      ∧ ((runWatch stepPoll (seqSchedule ([PollEvent.response JobStatus.processing]
          ++ PollEvent.response (JobStatus.completed none)
            :: [PollEvent.netError]))).updates.filter
              isTerminalUpdate).length = 1) :=
  ⟨by decide, by decide,
   C2_terminal_once.2.2.2.1 [PollEvent.response JobStatus.processing]
     [PollEvent.netError] [] (PollEvent.response (JobStatus.completed none))
     (by decide) (by decide)⟩

/-! ## C3: transport errors -/

/-- C3 counterexample: a watch whose first round trip fails at the
network layer and which later has two completed polls in flight at once
delivers two terminal updates, where the claim requires that a later
completed poll still yield exactly one; the transient error itself is
still never surfaced. -/
theorem C3_counterexample :
    ((runWatch stepPoll
        [WatchEvent.tick PollEvent.netError, WatchEvent.settle 0,
         WatchEvent.tick (PollEvent.response (JobStatus.completed none)),
         WatchEvent.tick (PollEvent.response (JobStatus.completed none)),
         WatchEvent.settle 0, WatchEvent.settle 0]).updates.filter
          isTerminalUpdate).length = 2
    ∧ (2 : Nat) ≠ 1
    ∧ ((runWatch stepPoll
        [WatchEvent.tick PollEvent.netError, WatchEvent.settle 0,
         WatchEvent.tick (PollEvent.response (JobStatus.completed none)),
         WatchEvent.tick (PollEvent.response (JobStatus.completed none)),
         WatchEvent.settle 0, WatchEvent.settle 0]).updates.filter
          isErrorUpdate) = [] :=
  ⟨by decide, by decide, by decide⟩

/-- C3 (amended): in both poll loops a round trip that fails at the
network layer delivers nothing when it settles and leaves the interval
exactly as armed as it was — the watch is not aborted and polling
resumes; over any schedule none of whose round trips carries a failed
response, no error update is ever delivered; and in every schedule where
round trips do not overlap, a completed poll reached after such failures
delivers the one terminal update carrying its result. (With overlapping
round trips a completed response can be delivered twice, which is what
the counterexample exploits.) -/
theorem C3_transport_tolerated :
    (∀ (s : WatchState Update) (i : Nat),
        s.inflight[i]? = some PollEvent.netError →
        stepEvent stepPoll s (WatchEvent.settle i)
          = ⟨s.armed, s.inflight.eraseIdx i, s.updates⟩)
    ∧ (∀ evs : List WatchEvent, (∀ ev ∈ evs, isFailedTick ev = false) →
        (runWatch stepPoll evs).updates.filter isErrorUpdate = [])
    ∧ (∀ (pre₁ pre₂ post : List PollEvent) (r : Option ResultPayload),
        (∀ e ∈ pre₁, isTerminalEvent e = false) →
        (∀ e ∈ pre₂, isTerminalEvent e = false) →
        (runWatch stepPoll (seqSchedule (pre₁ ++ PollEvent.netError :: pre₂
            ++ PollEvent.response (JobStatus.completed r) :: post))).updates.filter
              isTerminalUpdate = [Update.resultSet r])
    ∧ (∀ (s : WatchState UpdateHome) (i : Nat),
        s.inflight[i]? = some PollEvent.netError →
        stepEvent stepPollHome s (WatchEvent.settle i)
          = ⟨s.armed, s.inflight.eraseIdx i, s.updates⟩)
    ∧ (∀ evs : List WatchEvent, (∀ ev ∈ evs, isFailedTick ev = false) →
        (runWatch stepPollHome evs).updates.filter isErrorUpdateHome = [])
    ∧ (∀ (pre₁ pre₂ post : List PollEvent) (r : Option ResultPayload),
        (∀ e ∈ pre₁, isTerminalEvent e = false) →
        (∀ e ∈ pre₂, isTerminalEvent e = false) →
        (runWatch stepPollHome (seqSchedule (pre₁ ++ PollEvent.netError :: pre₂
            ++ PollEvent.response (JobStatus.completed r) :: post))).updates.filter
              isTerminalUpdateHome
          = [UpdateHome.resultSet (JobStatus.completed r)]) := by
  refine ⟨?_, ?_, ?_, ?_, ?_, ?_⟩
  · intro s i hi
    simp [stepEvent, hi, stepPoll]
  · intro evs hevs
    exact runWatchFrom_no_bad stepPoll isErrorUpdate stepPoll_no_error
      evs ⟨true, [], []⟩ hevs rfl rfl
  · intro pre₁ pre₂ post r h₁ h₂
    have hpre : ∀ e ∈ pre₁ ++ PollEvent.netError :: pre₂,
        isTerminalEvent e = false := by
      intro e he
      rcases List.mem_append.mp he with h | h
      · exact h₁ e h
      · rcases List.mem_cons.mp h with h | h
        · rw [h]; rfl
        · exact h₂ e h
    have hpre1 : ∀ e ∈ pre₁ ++ PollEvent.netError :: pre₂,
        (stepPoll e).2 = false := fun e he => by
      rw [stepPoll_stop]; exact hpre e he
    have hassoc : pre₁ ++ PollEvent.netError :: pre₂
        ++ PollEvent.response (JobStatus.completed r) :: post
        = (pre₁ ++ PollEvent.netError :: pre₂)
          ++ PollEvent.response (JobStatus.completed r) :: post := by
      simp
    rw [hassoc, runWatch_seq_terminal stepPoll _ post
      (PollEvent.response (JobStatus.completed r)) hpre1 rfl]
    show (((pre₁ ++ PollEvent.netError :: pre₂).map
        (fun e => (stepPoll e).1)).flatten
        ++ (stepPoll (PollEvent.response (JobStatus.completed r))).1).filter
          isTerminalUpdate = [Update.resultSet r]
    rw [List.filter_append,
      filter_flatten_eq_nil _ _ _
        (fun e he => stepPoll_nonterminal_filter e (hpre e he))]
    rfl
  · intro s i hi
    simp [stepEvent, hi, stepPollHome]
  · intro evs hevs
    exact runWatchFrom_no_bad stepPollHome isErrorUpdateHome stepPollHome_no_error
      evs ⟨true, [], []⟩ hevs rfl rfl
  · intro pre₁ pre₂ post r h₁ h₂
    have hpre : ∀ e ∈ pre₁ ++ PollEvent.netError :: pre₂,
        isTerminalEvent e = false := by
      intro e he
      rcases List.mem_append.mp he with h | h
      · exact h₁ e h
      · rcases List.mem_cons.mp h with h | h
        · rw [h]; rfl
        · exact h₂ e h
    have hpre1 : ∀ e ∈ pre₁ ++ PollEvent.netError :: pre₂,
        (stepPollHome e).2 = false := fun e he => by
      rw [stepPollHome_stop]; exact hpre e he
    have hassoc : pre₁ ++ PollEvent.netError :: pre₂
        ++ PollEvent.response (JobStatus.completed r) :: post
        = (pre₁ ++ PollEvent.netError :: pre₂)
          ++ PollEvent.response (JobStatus.completed r) :: post := by
      simp
    rw [hassoc, runWatch_seq_terminal stepPollHome _ post
      (PollEvent.response (JobStatus.completed r)) hpre1 rfl]
    show (((pre₁ ++ PollEvent.netError :: pre₂).map
        (fun e => (stepPollHome e).1)).flatten
        ++ (stepPollHome (PollEvent.response (JobStatus.completed r))).1).filter
          isTerminalUpdateHome = [UpdateHome.resultSet (JobStatus.completed r)]
    rw [List.filter_append,
      filter_flatten_eq_nil _ _ _
        (fun e he => stepPollHome_nonterminal_filter e (hpre e he))]
    rfl

/-- C3 witness: a processing poll, a network failure, then a completed
poll, each settling in turn; the one terminal update carries the
completed result. -/
theorem C3_witness :
    (∀ e ∈ [PollEvent.response JobStatus.processing], isTerminalEvent e = false)
    ∧ (∀ e ∈ ([] : List PollEvent), isTerminalEvent e = false)
    ∧ (runWatch stepPoll (seqSchedule ([PollEvent.response JobStatus.processing]
        ++ PollEvent.netError :: ([] : List PollEvent)
        ++ PollEvent.response (JobStatus.completed none)
          :: [PollEvent.netError]))).updates.filter isTerminalUpdate
      = [Update.resultSet none] :=
  ⟨by decide, by decide,
   C3_transport_tolerated.2.2.1 [PollEvent.response JobStatus.processing]
     [] [PollEvent.netError] none (by decide) (by decide)⟩

end Deforestation
